import Mathlib

/-!
Shallow embedding of the zoom engine in `src/app/zoom-canvas.tsx` (pbshgthm/longzoom).
JavaScript numbers are modelled as real numbers; where the code's guards on
non-finite values (NaN, Infinity) matter, a small sum type `JSNum` extends ℝ
with the three non-finite values and the relevant JS operations on them.
State captured in React closures (`targetZoomExponent`, `wheelMomentum`,
`pinchActive`, ...) is modelled by explicit state records threaded through the
functions that read and write it.
-/

namespace LongZoom

noncomputable section

/-- Constant from zoom-canvas.tsx line 20. -/
def BASE_RECT_WIDTH : ℝ := 4

/-- Constant from zoom-canvas.tsx line 21. -/
def BASE_RECT_HEIGHT : ℝ := 3

/-- Constant from zoom-canvas.tsx line 22. -/
def SCALE_FACTOR : ℝ := 2

/-- Constant from zoom-canvas.tsx line 23. -/
def BASE_SCALE : ℝ := 1

/-- Constant from zoom-canvas.tsx line 25. -/
def ZOOM_EASING : ℝ := 0.08

/-- Constant from zoom-canvas.tsx line 26. -/
def ZOOM_TOLERANCE : ℝ := 0.001

/-- Constant from zoom-canvas.tsx line 27. -/
def WHEEL_SENSITIVITY : ℝ := 0.012

/-- Constant from zoom-canvas.tsx line 29. -/
def LINE_TO_PIXEL_FACTOR : ℝ := 16

/-- Constant from zoom-canvas.tsx line 30. -/
def PAGE_TO_PIXEL_FACTOR : ℝ := 800

/-- Constant from zoom-canvas.tsx line 31. -/
def MAX_WHEEL_DELTA : ℝ := 30

/-- Constant from zoom-canvas.tsx line 32. -/
def WHEEL_NORMALIZATION_FACTOR : ℝ := 80

/-- Constant from zoom-canvas.tsx line 33. -/
def WHEEL_DAMPING : ℝ := 0.9

/-- Constant from zoom-canvas.tsx line 34. -/
def WHEEL_EPSILON : ℝ := 0.0002

/-- Constant from zoom-canvas.tsx line 52. -/
def ORIENTATION_DEAD_ZONE : ℝ := 0

/-- Constant from zoom-canvas.tsx line 53. -/
def ORIENTATION_ZOOM_SPEED : ℝ := 0.04

/-- Constant from zoom-canvas.tsx line 54. -/
def MIN_ZOOM_SPEED : ℝ := 0.3

/-- Constant from zoom-canvas.tsx line 55. -/
def FRAME_TIME_FACTOR : ℝ := 0.016

/-- `type Layer = { scale: number; src: string }` (zoom-canvas.tsx lines 15-18). -/
structure Layer where
  scale : ℝ
  src : String

/-- `buildLayers` (zoom-canvas.tsx lines 164-168):
`images.map((src, index) => ({ src, scale: BASE_SCALE * SCALE_FACTOR ** index }))`. -/
def buildLayers (images : List String) : List Layer :=
  (List.range images.length).zip images |>.map
    (fun p => { src := p.2, scale := BASE_SCALE * SCALE_FACTOR ^ p.1 })

/-- The `zoomRangeRef` record `{ min: number; max: number }` (zoom-canvas.tsx line 186). -/
structure ZoomRange where
  min : ℝ
  max : ℝ

/-- The clamp pattern `Math.max(range.min, Math.min(range.max, v))` used at
zoom-canvas.tsx lines 492-495, 556-567, 579-582 and 611-614. -/
def clampExp (r : ZoomRange) (v : ℝ) : ℝ :=
  max r.min (min r.max v)

/-- `updateZoomRange` (zoom-canvas.tsx lines 219-256).  `canvasAspect` is the
argument; `isMobile` and `layers` are captured from the enclosing component.
JS `layers[layerCount - 1]?.scale ?? 1` on an empty list indexes at -1 and
falls back to 1; with `List.get?` and Nat subtraction the fallback is taken
the same way.  `Math.log2` is `Real.logb 2`, `Math.SQRT2` is `Real.sqrt 2`. -/
def updateZoomRange (isMobile : Bool) (layers : List Layer) (canvasAspect : ℝ) :
    ZoomRange :=
  let layerCount := layers.length
  let outerScale := ((layers.get? (layerCount - 1)).map Layer.scale).getD 1
  let innerScale := ((layers.get? 0).map Layer.scale).getD 1
  let sceneAspect := BASE_RECT_WIDTH / BASE_RECT_HEIGHT
  let aspectStretch :=
    if canvasAspect > sceneAspect then canvasAspect / sceneAspect
    else sceneAspect / canvasAspect
  if isMobile then
    let minZoomScaleMobile := innerScale
    let maxZoomScaleMobile := outerScale / Real.sqrt 2
    let minExp := Real.logb 2 minZoomScaleMobile
    let maxExp := Real.logb 2 maxZoomScaleMobile
    if minExp ≤ maxExp then ⟨minExp, maxExp⟩ else ⟨maxExp, minExp⟩
  else
    -- desktop: `fitStretch` in the source is the same expression in both
    -- branches of its conditional, i.e. `aspectStretch` itself
    let minZoomScaleDesktop := innerScale * aspectStretch
    let maxZoomScaleDesktop := outerScale
    let minExp := Real.logb 2 minZoomScaleDesktop
    let maxExp := Real.logb 2 maxZoomScaleDesktop
    if minExp ≤ maxExp then ⟨minExp, maxExp⟩ else ⟨maxExp, minExp⟩

/-- A JavaScript number: a finite real or one of the three non-finite values.
Used where the source guards on `Number.isFinite` or compares values that can
be NaN or Infinity (the pinch path, zoom-canvas.tsx lines 476-496). -/
inductive JSNum where
  | fin (x : ℝ)
  | nan
  | inf
  | ninf

/-- `Number.isFinite`. -/
def JSNum.isFinite : JSNum → Bool
  | .fin _ => true
  | _ => false

/-- The finite value of a `JSNum` (0 for the non-finite values; only used
behind `isFinite` guards, exactly like the source). -/
def JSNum.toReal : JSNum → ℝ
  | .fin x => x
  | _ => 0

/-- The JS comparison `v <= 0`: false for NaN (all NaN comparisons are false),
false for Infinity, true for -Infinity. -/
def JSNum.leZero : JSNum → Prop
  | .fin x => x ≤ 0
  | .nan => False
  | .inf => False
  | .ninf => True

/-- The JS comparison `0 < v`: false for NaN. -/
def JSNum.isPos : JSNum → Prop
  | .fin x => 0 < x
  | .nan => False
  | .inf => True
  | .ninf => False

/-- JS division on `JSNum` (IEEE-754 semantics; the sign of a zero divisor is
not representable in ℝ, so `x / 0` is resolved as division by +0 — every use
in the embedded code is behind a guard excluding a zero divisor). -/
def JSNum.div : JSNum → JSNum → JSNum
  | .nan, _ => .nan
  | _, .nan => .nan
  | .inf, .inf => .nan
  | .inf, .ninf => .nan
  | .ninf, .inf => .nan
  | .ninf, .ninf => .nan
  | .inf, .fin y => if y < 0 then .ninf else .inf
  | .ninf, .fin y => if y < 0 then .inf else .ninf
  | .fin _, .inf => .fin 0
  | .fin _, .ninf => .fin 0
  | .fin x, .fin y =>
      if y = 0 then (if x = 0 then .nan else if 0 < x then .inf else .ninf)
      else .fin (x / y)

instance (v : JSNum) : Decidable v.leZero :=
  match v with
  | .fin x => inferInstanceAs (Decidable (x ≤ 0))
  | .nan => inferInstanceAs (Decidable False)
  | .inf => inferInstanceAs (Decidable False)
  | .ninf => inferInstanceAs (Decidable True)

instance (v : JSNum) : Decidable v.isPos :=
  match v with
  | .fin x => inferInstanceAs (Decidable (0 < x))
  | .nan => inferInstanceAs (Decidable False)
  | .inf => inferInstanceAs (Decidable True)
  | .ninf => inferInstanceAs (Decidable False)

/-- The closure variables `targetZoomExponent`, `currentZoomExponent`,
`wheelMomentum` (zoom-canvas.tsx lines 346-347 and 439), grouped as the
spec's `ZoomState`. -/
structure ZoomState where
  target : ℝ
  current : ℝ
  momentum : ℝ

/-- The closure variables `pinchActive`, `pinchStartDistance`,
`pinchStartExponent` (zoom-canvas.tsx lines 348-350), grouped as the spec's
`PinchState`.  The start distance is kept as a `JSNum` because it is seeded
from `getTouchDistance`, whose value feeds the guarded division. -/
structure PinchState where
  pinchActive : Bool
  pinchStartDistance : JSNum
  pinchStartExponent : ℝ

/-- `handleWheel` (zoom-canvas.tsx lines 441-465).  `enabled` is captured
from props; the event is abstracted to its `deltaMode` (0 = pixel, 1 = line,
2 = page) and `deltaY`.  Only `wheelMomentum` is written; the new momentum is
returned. -/
def handleWheel (enabled : Bool) (deltaMode : ℕ) (deltaY : ℝ) (momentum : ℝ) : ℝ :=
  if !enabled then momentum
  else
    let normalizedDelta :=
      if deltaMode = 0 then deltaY
      else if deltaMode = 1 then deltaY * LINE_TO_PIXEL_FACTOR
      else if deltaMode = 2 then deltaY * PAGE_TO_PIXEL_FACTOR
      else deltaY
    let clampedDelta := max (-MAX_WHEEL_DELTA) (min MAX_WHEEL_DELTA normalizedDelta)
    let scaledDelta := clampedDelta / WHEEL_NORMALIZATION_FACTOR
    momentum + scaledDelta

/-- `beginPinch` (zoom-canvas.tsx lines 467-474).  The event is abstracted to
its touch count and the value `getTouchDistance(event.touches)` would return;
`targetZoomExponent` is read into `pinchStartExponent`. -/
def beginPinch (enabled : Bool) (touchCount : ℕ) (distance : JSNum)
    (ps : PinchState) (targetExp : ℝ) : PinchState :=
  if !enabled || touchCount ≠ 2 then ps
  else { pinchActive := true, pinchStartDistance := distance,
         pinchStartExponent := targetExp }

/-- `handleTouchStart` (zoom-canvas.tsx lines 505-516): with `enabled` false
it only calls `preventDefault` and returns; otherwise it delegates to
`beginPinch`. -/
def handleTouchStart (enabled : Bool) (touchCount : ℕ) (distance : JSNum)
    (ps : PinchState) (targetExp : ℝ) : PinchState :=
  if !enabled then ps
  else beginPinch enabled touchCount distance ps targetExp

/-- `updatePinch` (zoom-canvas.tsx lines 476-496).  Writes only
`targetZoomExponent`; the pinch record is threaded through unchanged, as in
the source.  `Math.log(ratio) / Math.log(SCALE_FACTOR)` is `Real.logb 2`. -/
def updatePinch (range : ZoomRange) (touchCount : ℕ) (distance : JSNum)
    (ps : PinchState) (zs : ZoomState) : PinchState × ZoomState :=
  if !ps.pinchActive || touchCount ≠ 2 then (ps, zs)
  else if ps.pinchStartDistance.leZero ∨ !distance.isFinite then (ps, zs)
  else
    let ratio := distance.div ps.pinchStartDistance
    if !ratio.isFinite ∨ ratio.leZero then (ps, zs)
    else
      let deltaExponent := Real.logb 2 ratio.toReal
      let t := ps.pinchStartExponent - deltaExponent
      (ps, { zs with target := clampExp range t })

/-- `handleTouchMove` (zoom-canvas.tsx lines 518-529): with `enabled` false it
only calls `preventDefault` and returns; otherwise it delegates to
`updatePinch`. -/
def handleTouchMove (enabled : Bool) (range : ZoomRange) (touchCount : ℕ)
    (distance : JSNum) (ps : PinchState) (zs : ZoomState) :
    PinchState × ZoomState :=
  if !enabled then (ps, zs)
  else updatePinch range touchCount distance ps zs

/-- `endPinch` (zoom-canvas.tsx lines 498-503). -/
def endPinch (touchCount : ℕ) (ps : PinchState) : PinchState :=
  if touchCount < 2 then
    { ps with pinchActive := false, pinchStartDistance := .fin 0 }
  else ps

/-- `applyWheelMomentum` (zoom-canvas.tsx lines 571-588).  Returns the new
`(targetZoomExponent, wheelMomentum)` pair. -/
def applyWheelMomentum (range : ZoomRange) (target momentum : ℝ) : ℝ × ℝ :=
  if momentum = 0 then (target, momentum)
  else
    let deltaExponent := momentum * WHEEL_SENSITIVITY
    let target1 := clampExp range (target + deltaExponent)
    let momentum1 := momentum * WHEEL_DAMPING
    (target1, if |momentum1| < WHEEL_EPSILON then 0 else momentum1)

/-- `applyOrientationZoom` (zoom-canvas.tsx lines 590-615).  The orientation
ref holds `number | null`; returns the new `targetZoomExponent`.  Note that
the source consults only the orientation value — not the `enabled` prop. -/
def applyOrientationZoom (range : ZoomRange) (orientation : Option ℝ)
    (target : ℝ) : ℝ :=
  match orientation with
  | none => target
  | some currentOrientation =>
    let zoomDelta := currentOrientation * ORIENTATION_ZOOM_SPEED
    let zoomDelta1 :=
      if currentOrientation > ORIENTATION_DEAD_ZONE then max zoomDelta MIN_ZOOM_SPEED
      else if currentOrientation < -ORIENTATION_DEAD_ZONE then min zoomDelta (-MIN_ZOOM_SPEED)
      else zoomDelta
    clampExp range (target + zoomDelta1 * FRAME_TIME_FACTOR)

/-- `stepZoom` (zoom-canvas.tsx lines 617-624), restricted to its update of
`currentZoomExponent` (its return value `SCALE_FACTOR ** currentZoomExponent`
is the compositor's multiplicative factor and is modelled by `zoomScale`). -/
def stepZoom (target current : ℝ) : ℝ :=
  let current1 := current + (target - current) * ZOOM_EASING
  if |target - current1| < ZOOM_TOLERANCE then target else current1

/-- The value `stepZoom` returns to the compositor (zoom-canvas.tsx line 623). -/
def zoomScale (current : ℝ) : ℝ :=
  SCALE_FACTOR ^ current

/-- The zoom-intialization state touched by `resize`: the three exponents and
the `zoomInitialized` flag (zoom-canvas.tsx lines 346-351). -/
structure SessionZoom where
  target : ℝ
  current : ℝ
  pinchStartExponent : ℝ
  zoomInitialized : Bool

/-- `resize` (zoom-canvas.tsx lines 535-569), restricted to its zoom-state
effect: recompute the range from `width / height`, then either initialize all
three exponents to the midpoint (first resize) or clamp each into the new
range.  Canvas/GL surface sizing is out of scope of the zoom state. -/
def resize (isMobile : Bool) (layers : List Layer) (width height : ℝ)
    (s : SessionZoom) : ZoomRange × SessionZoom :=
  let canvasAspect := width / height
  let range := updateZoomRange isMobile layers canvasAspect
  if !s.zoomInitialized then
    let midZoom := (range.min + range.max) / 2
    (range, { target := midZoom, current := midZoom,
              pinchStartExponent := midZoom, zoomInitialized := true })
  else
    (range, { target := clampExp range s.target,
              current := clampExp range s.current,
              pinchStartExponent := clampExp range s.pinchStartExponent,
              zoomInitialized := true })

/-- The texture-loading state of a session: the `textures` slot array
(zoom-canvas.tsx line 341), the `texturesReady` flag (line 342), the
`readyRef` flag (line 183) and a count of `onReady` invocations. -/
structure TexLoadState (τ : Type) where
  textures : List (Option τ)
  texturesReady : Bool
  readyFlag : Bool
  readyEmitted : ℕ

/-- A settled texture load: `some t` for a fulfilled `PromiseSettledResult`,
`none` for a rejected one. -/
def SettledResult (τ : Type) := Option τ

/-- `assignTexturesFromResults` (zoom-canvas.tsx lines 405-421): install each
fulfilled texture in its slot, set `texturesReady` to whether any load was
fulfilled, and if not cancelled, ready, and not yet flagged, flag ready and
emit `onReady`. -/
def assignTexturesFromResults {τ : Type} (cancelled : Bool)
    (s : TexLoadState τ) (results : List (Option τ)) : TexLoadState τ :=
  let hasTexture := results.any Option.isSome
  let textures1 := s.textures.mapIdx (fun i slot =>
    match results.get? i with
    | some (some v) => some v
    | _ => slot)
  let s1 := { s with textures := textures1, texturesReady := hasTexture }
  if !cancelled && s1.texturesReady && !s1.readyFlag then
    { s1 with readyFlag := true, readyEmitted := s1.readyEmitted + 1 }
  else s1

/-- `loadAllTextures` (zoom-canvas.tsx lines 423-437), from the point where
all loads have settled with `results`: if cancelled, dispose and change
nothing; otherwise assign the results and re-check the ready condition. -/
def loadAllTextures {τ : Type} (cancelled : Bool) (s : TexLoadState τ)
    (results : List (Option τ)) : TexLoadState τ :=
  if cancelled then s
  else
    let s1 := assignTexturesFromResults cancelled s results
    if !cancelled && s1.texturesReady && !s1.readyFlag then
      { s1 with readyFlag := true, readyEmitted := s1.readyEmitted + 1 }
    else s1

/-- From the spec (§4.4, refinement side): the final range orders the two
derived exponents, `{min: min(exp1,exp2), max: max(exp1,exp2)}`. -/
def specOrderedRange (e1 e2 : ℝ) : ZoomRange :=
  if e1 ≤ e2 then ⟨e1, e2⟩ else ⟨e2, e1⟩

/-- From the spec (§4.4, refinement side):
`aspectStretch = max(canvasAspect, sceneAspect) / min(canvasAspect, sceneAspect)`. -/
def specAspectStretch (canvasAspect sceneAspect : ℝ) : ℝ :=
  max canvasAspect sceneAspect / min canvasAspect sceneAspect

/-- From the spec (§4.4, refinement side): the per-mode exponent formulas —
handheld: `log2(innerScale)` and `log2(outerScale / sqrt 2)`; fixed-surface:
`log2(innerScale * aspectStretch)` and `log2(outerScale)` — then ordered. -/
def specZoomRange (isMobile : Bool) (innerScale outerScale canvasAspect : ℝ) :
    ZoomRange :=
  let sceneAspect := BASE_RECT_WIDTH / BASE_RECT_HEIGHT
  let stretch := specAspectStretch canvasAspect sceneAspect
  if isMobile then
    specOrderedRange (Real.logb 2 innerScale)
      (Real.logb 2 (outerScale / Real.sqrt 2))
  else
    specOrderedRange (Real.logb 2 (innerScale * stretch))
      (Real.logb 2 outerScale)

end

section Theorems

/-- Helper: a range built by the swap-if-reversed conditional has min ≤ max. -/
lemma ite_swap_min_le_max (a b : ℝ) :
    (if a ≤ b then (⟨a, b⟩ : ZoomRange) else ⟨b, a⟩).min ≤
      (if a ≤ b then (⟨a, b⟩ : ZoomRange) else ⟨b, a⟩).max := by
  by_cases hab : a ≤ b
  · rw [if_pos hab]
    exact hab
  · rw [if_neg hab]
    exact le_of_not_le hab

/-- C9: `buildLayers` applied to an ordered list of N sources returns exactly
N layers, with `layers[i].scale = 2 ^ i` (factor 2, base 1), so the scales
are strictly increasing in the index; it is a total function with no failure
modes. -/
theorem buildLayers_scales (images : List String) :
    (buildLayers images).length = images.length ∧
    (buildLayers images).map Layer.scale
      = (List.range images.length).map (fun i => (2 : ℝ) ^ i) ∧
    ((buildLayers images).map Layer.scale).Pairwise (· < ·) := by
  have hmap : (buildLayers images).map Layer.scale
      = (List.range images.length).map (fun i => (2 : ℝ) ^ i) := by
    apply List.ext_getElem
    · simp [buildLayers]
    · intro i h1 h2
      simp only [buildLayers, List.map_map, List.getElem_map, List.getElem_zip,
        List.getElem_range, Function.comp]
      simp [BASE_SCALE, SCALE_FACTOR]
  refine ⟨by simp [buildLayers], hmap, ?_⟩
  rw [hmap]
  refine List.Pairwise.map _ (fun a b hab => ?_) (List.pairwise_lt_range _)
  exact pow_lt_pow_right₀ one_lt_two hab

/-- C4: every `ZoomRange` produced by `updateZoomRange` satisfies min ≤ max,
for every positive canvasAspect, every layer list (including 0 and 1 layers)
and both device-class modes, because the derived exponents are swapped when
out of order. -/
theorem updateZoomRange_min_le_max (isMobile : Bool) (layers : List Layer)
    (canvasAspect : ℝ) (h : 0 < canvasAspect) :
    (updateZoomRange isMobile layers canvasAspect).min ≤
      (updateZoomRange isMobile layers canvasAspect).max := by
  unfold updateZoomRange
  cases isMobile <;> simp only [Bool.false_eq_true, if_false, if_true, ite_true,
    ite_false] <;> exact ite_swap_min_le_max _ _

/-- C4 witness: instantiated at one layer, desktop mode, square viewport. -/
theorem updateZoomRange_min_le_max_witness :
    (updateZoomRange false (buildLayers ["a"]) 1).min ≤
      (updateZoomRange false (buildLayers ["a"]) 1).max :=
  updateZoomRange_min_le_max false (buildLayers ["a"]) 1 one_pos

/-- C3: for every positive canvasAspect, `updateZoomRange` computes exactly
the spec's per-mode exponent pair — handheld: `log2 innerScale` and
`log2 (outerScale / sqrt 2)`; fixed-surface: `log2 (innerScale *
aspectStretch)` and `log2 outerScale`, with `aspectStretch =
max(canvasAspect, sceneAspect) / min(canvasAspect, sceneAspect)` — followed
by the final ordering (`specZoomRange`). -/
theorem updateZoomRange_refines_spec (isMobile : Bool) (layers : List Layer)
    (canvasAspect : ℝ) (h : 0 < canvasAspect) :
    updateZoomRange isMobile layers canvasAspect =
      specZoomRange isMobile (((layers.get? 0).map Layer.scale).getD 1)
        (((layers.get? (layers.length - 1)).map Layer.scale).getD 1)
        canvasAspect := by
  have hstretch :
      (if canvasAspect > BASE_RECT_WIDTH / BASE_RECT_HEIGHT
        then canvasAspect / (BASE_RECT_WIDTH / BASE_RECT_HEIGHT)
        else (BASE_RECT_WIDTH / BASE_RECT_HEIGHT) / canvasAspect)
      = specAspectStretch canvasAspect (BASE_RECT_WIDTH / BASE_RECT_HEIGHT) := by
    unfold specAspectStretch
    by_cases hgt : canvasAspect > BASE_RECT_WIDTH / BASE_RECT_HEIGHT
    · rw [if_pos hgt, max_eq_left hgt.le, min_eq_right hgt.le]
    · have hle : canvasAspect ≤ BASE_RECT_WIDTH / BASE_RECT_HEIGHT := not_lt.mp hgt
      rw [if_neg hgt, max_eq_right hle, min_eq_left hle]
  unfold updateZoomRange specZoomRange specOrderedRange
  cases isMobile <;>
    simp only [Bool.false_eq_true, if_false, if_true, ite_true, ite_false, hstretch]

/-- C3 witness: instantiated at one layer, handheld mode, square viewport. -/
theorem updateZoomRange_refines_spec_witness :
    updateZoomRange true (buildLayers ["a"]) 1 =
      specZoomRange true
        ((((buildLayers ["a"]).get? 0).map Layer.scale).getD 1)
        ((((buildLayers ["a"]).get? ((buildLayers ["a"]).length - 1)).map
          Layer.scale).getD 1) 1 :=
  updateZoomRange_refines_spec true (buildLayers ["a"]) 1 one_pos

/-- C10: on the first resize of a session (`zoomInitialized` still false),
the freshly computed range is `updateZoomRange` of `width / height`, and
`target`, `current` and the pinch-start exponent are all set to its midpoint
`(min + max) / 2`; the flag becomes true. -/
theorem resize_first_initializes_midpoint (isMobile : Bool)
    (layers : List Layer) (width height : ℝ) (s : SessionZoom)
    (h : s.zoomInitialized = false) :
    (resize isMobile layers width height s).1 =
      updateZoomRange isMobile layers (width / height) ∧
    (resize isMobile layers width height s).2.target =
      ((resize isMobile layers width height s).1.min +
       (resize isMobile layers width height s).1.max) / 2 ∧
    (resize isMobile layers width height s).2.current =
      ((resize isMobile layers width height s).1.min +
       (resize isMobile layers width height s).1.max) / 2 ∧
    (resize isMobile layers width height s).2.pinchStartExponent =
      ((resize isMobile layers width height s).1.min +
       (resize isMobile layers width height s).1.max) / 2 ∧
    (resize isMobile layers width height s).2.zoomInitialized = true := by
  simp [resize, h]

/-- C10 witness: a fresh session resized to a 4:3 surface with one layer. -/
theorem resize_first_initializes_midpoint_witness :
    (resize false (buildLayers ["a"]) 4 3 ⟨0, 0, 0, false⟩).1 =
      updateZoomRange false (buildLayers ["a"]) (4 / 3) ∧
    (resize false (buildLayers ["a"]) 4 3 ⟨0, 0, 0, false⟩).2.target =
      ((resize false (buildLayers ["a"]) 4 3 ⟨0, 0, 0, false⟩).1.min +
       (resize false (buildLayers ["a"]) 4 3 ⟨0, 0, 0, false⟩).1.max) / 2 ∧
    (resize false (buildLayers ["a"]) 4 3 ⟨0, 0, 0, false⟩).2.current =
      ((resize false (buildLayers ["a"]) 4 3 ⟨0, 0, 0, false⟩).1.min +
       (resize false (buildLayers ["a"]) 4 3 ⟨0, 0, 0, false⟩).1.max) / 2 ∧
    (resize false (buildLayers ["a"]) 4 3 ⟨0, 0, 0, false⟩).2.pinchStartExponent =
      ((resize false (buildLayers ["a"]) 4 3 ⟨0, 0, 0, false⟩).1.min +
       (resize false (buildLayers ["a"]) 4 3 ⟨0, 0, 0, false⟩).1.max) / 2 ∧
    (resize false (buildLayers ["a"]) 4 3 ⟨0, 0, 0, false⟩).2.zoomInitialized = true :=
  resize_first_initializes_midpoint false (buildLayers ["a"]) 4 3 ⟨0, 0, 0, false⟩ rfl

/-- C2 counterexample: the claim also asserts that with the session's
`enabled` flag false the per-frame tilt processing leaves the target
unchanged; but `applyOrientationZoom` (zoom-canvas.tsx lines 590-615) never
consults `enabled` — it runs on every frame whenever the orientation value is
non-null, so in a disabled session with orientation 10° and target 0 the
target moves to 0.0064. -/
theorem applyOrientationZoom_moves_target_counterexample :
    applyOrientationZoom ⟨-1, 1⟩ (some 10) 0 ≠ 0 := by
  norm_num [applyOrientationZoom, clampExp, max_def, min_def,
    ORIENTATION_ZOOM_SPEED, ORIENTATION_DEAD_ZONE, MIN_ZOOM_SPEED,
    FRAME_TIME_FACTOR]

/-- C2 (amended): with `enabled` false, the wheel handler leaves momentum
unchanged, a touch start leaves the pinch record unchanged and a touch move
leaves both pinch and zoom state unchanged; the tilt channel, however, is
gated only by the orientation signal — it leaves the target unchanged when
the orientation is null, not as a consequence of `enabled`. -/
theorem disabled_input_channels :
    (∀ deltaMode deltaY momentum,
      handleWheel false deltaMode deltaY momentum = momentum) ∧
    (∀ touchCount distance ps targetExp,
      handleTouchStart false touchCount distance ps targetExp = ps) ∧
    (∀ range touchCount distance ps zs,
      handleTouchMove false range touchCount distance ps zs = (ps, zs)) ∧
    (∀ range target, applyOrientationZoom range none target = target) := by
  refine ⟨?_, ?_, ?_, ?_⟩
  · intro deltaMode deltaY momentum
    simp [handleWheel]
  · intro touchCount distance ps targetExp
    simp [handleTouchStart]
  · intro range touchCount distance ps zs
    simp [handleTouchMove]
  · intro range target
    simp [applyOrientationZoom]

/-- C7: a wheel event with delta 0 leaves momentum unchanged (so at 0 it
stays 0); each frame with nonzero momentum adds `momentum *
WHEEL_SENSITIVITY` to the target, clamps it into the range, damps the
momentum by `WHEEL_DAMPING` and zeroes it exactly once its magnitude falls
below `WHEEL_EPSILON`; a frame with momentum 0 changes nothing, so 0 is a
fixed point under further frames with no new input. -/
theorem wheel_momentum_behavior :
    (∀ (enabled : Bool) (deltaMode : ℕ) (momentum : ℝ),
      handleWheel enabled deltaMode 0 momentum = momentum) ∧
    (∀ (range : ZoomRange) (target momentum : ℝ), momentum ≠ 0 →
      applyWheelMomentum range target momentum =
        (clampExp range (target + momentum * WHEEL_SENSITIVITY),
         if |momentum * WHEEL_DAMPING| < WHEEL_EPSILON then 0
         else momentum * WHEEL_DAMPING)) ∧
    (∀ (range : ZoomRange) (target momentum : ℝ), momentum ≠ 0 →
      |momentum * WHEEL_DAMPING| < WHEEL_EPSILON →
      (applyWheelMomentum range target momentum).2 = 0) ∧
    (∀ (range : ZoomRange) (target : ℝ),
      applyWheelMomentum range target 0 = (target, 0)) := by
  refine ⟨?_, ?_, ?_, ?_⟩
  · intro enabled deltaMode momentum
    cases enabled
    · simp [handleWheel]
    · norm_num [handleWheel, max_def, min_def, MAX_WHEEL_DELTA,
        WHEEL_NORMALIZATION_FACTOR]
  · intro range target momentum hm
    simp [applyWheelMomentum, hm]
  · intro range target momentum hm heps
    simp [applyWheelMomentum, hm, heps]
  · intro range target
    simp [applyWheelMomentum]

/-- C7 witness: a live momentum of 1 follows the add-clamp-damp formulas, and
a momentum of 1/10000 is zeroed exactly after one damped frame. -/
theorem wheel_momentum_behavior_witness :
    applyWheelMomentum ⟨-1, 1⟩ 0 1 =
      (clampExp ⟨-1, 1⟩ (0 + 1 * WHEEL_SENSITIVITY),
       if |(1 : ℝ) * WHEEL_DAMPING| < WHEEL_EPSILON then 0
       else 1 * WHEEL_DAMPING) ∧
    (applyWheelMomentum ⟨-1, 1⟩ 0 (1 / 10000)).2 = 0 :=
  ⟨wheel_momentum_behavior.2.1 ⟨-1, 1⟩ 0 1 one_ne_zero,
   wheel_momentum_behavior.2.2.1 ⟨-1, 1⟩ 0 (1 / 10000) (by norm_num)
     (by rw [abs_lt]; constructor <;> norm_num [WHEEL_DAMPING, WHEEL_EPSILON])⟩

/-- C5: for an active pinch with positive start distance `s` and a measured
distance `d` giving a positive finite ratio `d / s`, a pinch move sets the
target to `startExponent - log2(d / s)` clamped into the current range (the
pinch record itself and the other zoom fields are untouched); a ratio of 1
leaves the unclamped value at `startExponent`, and a ratio of 2 lowers it by
exactly 1 before clamping. -/
theorem updatePinch_formula (range : ZoomRange) (ps : PinchState)
    (zs : ZoomState) (s d : ℝ) (hact : ps.pinchActive = true)
    (hsd : ps.pinchStartDistance = .fin s) (hs : 0 < s) (hr : 0 < d / s) :
    updatePinch range 2 (.fin d) ps zs =
      (ps,
       { zs with
           target := clampExp range (ps.pinchStartExponent - Real.logb 2 (d / s)) }) ∧
    (d / s = 1 →
      ps.pinchStartExponent - Real.logb 2 (d / s) = ps.pinchStartExponent) ∧
    (d / s = 2 →
      ps.pinchStartExponent - Real.logb 2 (d / s) = ps.pinchStartExponent - 1) := by
  refine ⟨?_, ?_, ?_⟩
  · simp [updatePinch, hact, hsd, JSNum.leZero, JSNum.isFinite, JSNum.div,
      JSNum.toReal, hs.ne', not_le.mpr hs, not_le.mpr hr]
  · intro h1
    rw [h1, Real.logb_one, sub_zero]
  · intro h2
    rw [h2, Real.logb_self_eq_one one_lt_two]

/-- C5 witness: start distance 1, start exponent 5, measured distance 2 —
ratio 2, one octave down before clamping into [-1, 1]. -/
theorem updatePinch_formula_witness :
    updatePinch ⟨-1, 1⟩ 2 (.fin 2) ⟨true, .fin 1, 5⟩ ⟨0, 0, 0⟩ =
      (⟨true, .fin 1, 5⟩,
       ⟨clampExp ⟨-1, 1⟩ ((5 : ℝ) - Real.logb 2 (2 / 1)), 0, 0⟩) ∧
    ((2 : ℝ) / 1 = 1 → (5 : ℝ) - Real.logb 2 (2 / 1) = 5) ∧
    ((2 : ℝ) / 1 = 2 → (5 : ℝ) - Real.logb 2 (2 / 1) = 5 - 1) :=
  updatePinch_formula ⟨-1, 1⟩ ⟨true, .fin 1, 5⟩ ⟨0, 0, 0⟩ 1 2 rfl rfl one_pos
    (by norm_num)

/-- C6: a pinch move whose start distance is not positive (including NaN and
-Infinity), or whose measured distance or computed ratio is non-finite, or
whose ratio is not positive, returns with the pinch record and the zoom state
both unchanged — no error, no NaN written. -/
theorem updatePinch_degenerate (range : ZoomRange) (touchCount : ℕ)
    (d : JSNum) (ps : PinchState) (zs : ZoomState)
    (h : ¬ ps.pinchStartDistance.isPos ∨ d.isFinite = false ∨
         (d.div ps.pinchStartDistance).isFinite = false ∨
         ¬ (d.div ps.pinchStartDistance).isPos) :
    updatePinch range touchCount d ps zs = (ps, zs) := by
  simp only [updatePinch]
  split_ifs with hA hB hC
  · rfl
  · rfl
  · rfl
  · exfalso
    push_neg at hB hC
    obtain ⟨hB1, hB2⟩ := hB
    obtain ⟨hC1, hC2⟩ := hC
    have hdfin : d.isFinite = true := by
      cases hdf : d.isFinite
      · exact absurd (by simp [hdf]) hB2
      · rfl
    have hrfin : (d.div ps.pinchStartDistance).isFinite = true := by
      cases hrf : (d.div ps.pinchStartDistance).isFinite
      · exact absurd (by simp [hrf]) hC1
      · rfl
    rcases h with h1 | h2 | h3 | h4
    · cases hsd : ps.pinchStartDistance with
      | fin x =>
        rw [hsd] at hB1
        have hx : 0 < x := lt_of_not_le (by simpa [JSNum.leZero] using hB1)
        exact h1 (by simpa [JSNum.isPos, hsd] using hx)
      | nan =>
        rw [hsd] at hrfin
        cases d <;> simp [JSNum.div, JSNum.isFinite] at hrfin
      | inf => exact h1 (by simp [hsd, JSNum.isPos])
      | ninf =>
        rw [hsd] at hB1
        exact hB1 (by simp [JSNum.leZero])
    · rw [h2] at hdfin
      exact absurd hdfin (by simp)
    · rw [h3] at hrfin
      exact absurd hrfin (by simp)
    · cases hratio : d.div ps.pinchStartDistance with
      | fin r =>
        rw [hratio] at hC2
        have hr : 0 < r := lt_of_not_le (by simpa [JSNum.leZero] using hC2)
        exact h4 (by simpa [JSNum.isPos, hratio] using hr)
      | nan =>
        rw [hratio] at hrfin
        simp [JSNum.isFinite] at hrfin
      | inf => exact h4 (by simp [hratio, JSNum.isPos])
      | ninf =>
        rw [hratio] at hC2
        exact hC2 (by simp [JSNum.leZero])

/-- C6 witness: an active two-finger move whose recorded start distance is 0
(the "zero-length pinch" of the spec) changes nothing. -/
theorem updatePinch_degenerate_witness :
    updatePinch ⟨-1, 1⟩ 2 (.fin 1) ⟨true, .fin 0, 5⟩ ⟨0, 0, 0⟩ =
      (⟨true, .fin 0, 5⟩, ⟨0, 0, 0⟩) :=
  updatePinch_degenerate ⟨-1, 1⟩ 2 (.fin 1) ⟨true, .fin 0, 5⟩ ⟨0, 0, 0⟩
    (Or.inl (by simp [JSNum.isPos]))

/-- Helper: stepping from the target itself stays at the target. -/
lemma stepZoom_fix (t : ℝ) : stepZoom t t = t := by
  simp [stepZoom, ZOOM_TOLERANCE]

/-- Helper: one integrator step either snaps exactly to the target or
contracts the residual by `1 - ZOOM_EASING` while staying at or above the
tolerance. -/
lemma stepZoom_contract (t c : ℝ) :
    stepZoom t c = t ∨
      (|t - stepZoom t c| = (1 - ZOOM_EASING) * |t - c| ∧
       ZOOM_TOLERANCE ≤ |t - stepZoom t c|) := by
  unfold stepZoom
  by_cases hsnap : |t - (c + (t - c) * ZOOM_EASING)| < ZOOM_TOLERANCE
  · left
    rw [if_pos hsnap]
  · right
    rw [if_neg hsnap]
    refine ⟨?_, le_of_not_lt hsnap⟩
    have hres : t - (c + (t - c) * ZOOM_EASING) = (t - c) * (1 - ZOOM_EASING) := by
      ring
    rw [hres, abs_mul,
      abs_of_pos (show (0 : ℝ) < 1 - ZOOM_EASING by norm_num [ZOOM_EASING])]
    ring

/-- Helper: after `n + 1` steps the integrator has either reached the target
exactly or carries residual `(1 - ZOOM_EASING) ^ (n + 1) * |t - c|`, still at
or above the tolerance. -/
lemma stepZoom_iterate_residual (t c : ℝ) (n : ℕ) :
    (stepZoom t)^[n + 1] c = t ∨
      (|t - (stepZoom t)^[n + 1] c| = (1 - ZOOM_EASING) ^ (n + 1) * |t - c| ∧
       ZOOM_TOLERANCE ≤ |t - (stepZoom t)^[n + 1] c|) := by
  induction n with
  | zero =>
    rcases stepZoom_contract t c with h | ⟨h1, h2⟩
    · left
      simpa using h
    · right
      refine ⟨by simpa using h1, by simpa using h2⟩
  | succ n ih =>
    have hiter : (stepZoom t)^[n + 1 + 1] c = stepZoom t ((stepZoom t)^[n + 1] c) :=
      Function.iterate_succ_apply' (stepZoom t) (n + 1) c
    rcases ih with ih | ⟨ih1, ih2⟩
    · left
      rw [hiter, ih]
      exact stepZoom_fix t
    · rcases stepZoom_contract t ((stepZoom t)^[n + 1] c) with h | ⟨h1, h2⟩
      · left
        rw [hiter]
        exact h
      · right
        constructor
        · rw [hiter, h1, ih1]
          ring
        · rw [hiter]
          exact h2

/-- C8: from every initial current exponent and every fixed target, repeated
application of the integrator step (`current += (target - current) * easing`,
snapping once the residual drops below the tolerance) reaches exact equality
with the target in finitely many steps. -/
theorem stepZoom_converges (t c : ℝ) :
    ∃ n : ℕ, (stepZoom t)^[n] c = t := by
  by_cases h0 : |t - c| = 0
  · have hct : c = t := (sub_eq_zero.mp (abs_eq_zero.mp h0)).symm
    exact ⟨0, by simpa using hct⟩
  · have hr0 : 0 < |t - c| := lt_of_le_of_ne (abs_nonneg _) (Ne.symm h0)
    have hq0 : (0 : ℝ) ≤ 1 - ZOOM_EASING := by norm_num [ZOOM_EASING]
    have hq1 : 1 - ZOOM_EASING < 1 := by norm_num [ZOOM_EASING]
    obtain ⟨n, hn⟩ := exists_pow_lt_of_lt_one
      (div_pos (show (0 : ℝ) < ZOOM_TOLERANCE by norm_num [ZOOM_TOLERANCE]) hr0)
      hq1
    have hlt : (1 - ZOOM_EASING) ^ (n + 1) * |t - c| < ZOOM_TOLERANCE := by
      have hmono : (1 - ZOOM_EASING) ^ (n + 1) ≤ (1 - ZOOM_EASING) ^ n :=
        pow_le_pow_of_le_one hq0 hq1.le (Nat.le_succ n)
      calc (1 - ZOOM_EASING) ^ (n + 1) * |t - c|
          ≤ (1 - ZOOM_EASING) ^ n * |t - c| :=
            mul_le_mul_of_nonneg_right hmono (abs_nonneg _)
        _ < ZOOM_TOLERANCE := (lt_div_iff₀ hr0).mp hn
    rcases stepZoom_iterate_residual t c n with h | ⟨h1, h2⟩
    · exact ⟨n + 1, h⟩
    · rw [h1] at h2
      exact absurd hlt (not_lt.mpr h2)

/-- C1 counterexample: a session with N = 1 image source whose single texture
load settles as rejected (and which is not cancelled) does NOT become ready:
`texturesReady` is set to `hasTexture = false`, so the `readyRef` flag stays
false and `onReady` is never emitted, contrary to the claim that readiness
still becomes true when zero textures succeed. -/
theorem loadAllTextures_zero_success_counterexample :
    (loadAllTextures false (⟨[none], false, false, 0⟩ : TexLoadState Unit)
        [none]).readyFlag = false ∧
    (loadAllTextures false (⟨[none], false, false, 0⟩ : TexLoadState Unit)
        [none]).readyEmitted = 0 := by
  constructor <;> rfl

/-- C1 (amended): when all N ≥ 1 texture loads settle and zero of them
succeed (session not cancelled), readiness does NOT become true: the
`texturesReady` flag is false, the ready flag stays false and `onReady` is
not emitted.  (Per the code, the ready signal fires only when at least one
texture succeeds — or, upstream, when the source list is empty.) -/
theorem loadAllTextures_zero_success_stays_unready {τ : Type}
    (s : TexLoadState τ) (results : List (Option τ))
    (hN : 0 < results.length) (hall : ∀ r ∈ results, r = none)
    (hflag : s.readyFlag = false) :
    (loadAllTextures false s results).texturesReady = false ∧
    (loadAllTextures false s results).readyFlag = false ∧
    (loadAllTextures false s results).readyEmitted = s.readyEmitted := by
  have hany : results.any Option.isSome = false := by
    rw [List.any_eq_false]
    intro r hr
    rw [hall r hr]
    simp
  simp [loadAllTextures, assignTexturesFromResults, hany, hflag]

/-- C1 amended-claim witness: two sources, both loads rejected. -/
theorem loadAllTextures_zero_success_stays_unready_witness :
    (loadAllTextures false (⟨[none, none], false, false, 3⟩ : TexLoadState Unit)
        [none, none]).texturesReady = false ∧
    (loadAllTextures false (⟨[none, none], false, false, 3⟩ : TexLoadState Unit)
        [none, none]).readyFlag = false ∧
    (loadAllTextures false (⟨[none, none], false, false, 3⟩ : TexLoadState Unit)
        [none, none]).readyEmitted =
      (⟨[none, none], false, false, 3⟩ : TexLoadState Unit).readyEmitted :=
  loadAllTextures_zero_success_stays_unready
    (⟨[none, none], false, false, 3⟩ : TexLoadState Unit) [none, none]
    (by decide) (by decide) rfl

end Theorems

end LongZoom
